import Mathlib

/-!
Verification of the disdrillery extraction pipeline.

Shallow embedding of the Go sources:
* `src/unnamed/part_000` (package `disdrillery`): the drilling engine
  (`Init`, `AppendTransformer`, `Analyze`, `visitCommit`, `GetMetaInfos`).
* `src/v1/disdrillery/transformer/commit-history-transformer.go`:
  the `CommitHistoryTransformer` and its append operations.

Stateful Go methods become explicit state passing; `log.Fatal` / `log.Panic`
(process aborts) become `Except` errors respectively dedicated outcome
constructors; go-git's fallible `commit.Files()` becomes an `Option`.
-/

namespace Disdrillery

/-- model.CommitVertex: one row of the commit-vertex table
(fields as built in `visitCommit`, part_000 lines 116-126). -/
structure CommitVertex where
  repositoryName : String
  commitHash : String
  authorName : String
  authorMail : String
  authorTimestamp : Int
  committerName : String
  committerMail : String
  committerTimestamp : Int
  commitMessage : String
deriving DecidableEq

/-- model.CommitEdge: a child-to-parent arc of the commit DAG.  The Go
struct stores `*string` pointers; the pointed-to strings are modelled. -/
structure CommitEdge where
  commitHash : String
  parentCommitHash : String
deriving DecidableEq

/-- model.FileContentVertex: one row per file of a commit's tree snapshot
(fields as built in `visitCommit`, part_000 lines 143-148). -/
structure FileContentVertex where
  commitHash : String
  objectHash : String
  fileName : String
  fileSize : Int
deriving DecidableEq

/-- Modelled from the spec: `index.Meta` (source file not under src/) is a
descriptive record about an extractor's output: name, schema, operational
level. -/
structure Meta where
  metaName : String
  metaSchema : String
  metaOperationalLevel : String
deriving DecidableEq

/-- The Go zero value of `index.Meta`: `make([]index.Meta, n)` fills the
slice with `n` copies of this value. -/
def zeroMeta : Meta := ⟨"", "", ""⟩

/-- go-git `object.File` as consumed by `visitCommit`: name, object hash,
size. -/
structure GitFile where
  fileName : String
  fileHash : String
  fileSize : Int
deriving DecidableEq

/-- go-git `object.Commit` as consumed by `visitCommit`.  `files = none`
models a failing `commit.Files()` call (tree-enumeration failure). -/
structure Commit where
  hash : String
  authorName : String
  authorMail : String
  authorWhen : Int
  committerName : String
  committerMail : String
  committerWhen : Int
  message : String
  parentHashes : List String
  files : Option (List GitFile)
deriving DecidableEq

/-- transformer.CommitHistoryTransformer: buffers commit vertices and
commit edges (commit-history-transformer.go lines 10-17). -/
structure CommitHistoryTransformer where
  chtName : String
  chtOperationalLevel : String
  vertexOutput : String
  edgeOutput : String
  vertexData : List CommitVertex
  edgeData : List CommitEdge
deriving DecidableEq

/-- `AppendCommitVertex` (commit-history-transformer.go lines 27-29):
appends one vertex to the vertex buffer. -/
def CommitHistoryTransformer.AppendCommitVertex
    (t : CommitHistoryTransformer) (commit : CommitVertex) :
    CommitHistoryTransformer :=
  { t with vertexData := t.vertexData ++ [commit] }

/-- `AppendCommitEdge` (commit-history-transformer.go lines 31-39): for
each parent hash, appends one edge `{commitHash, parent}` to the edge
buffer, in parent order. -/
def CommitHistoryTransformer.AppendCommitEdge
    (t : CommitHistoryTransformer) (commitHash : String)
    (parentHashes : List String) : CommitHistoryTransformer :=
  parentHashes.foldl
    (fun t parent => { t with edgeData := t.edgeData ++ [⟨commitHash, parent⟩] })
    t

/-- `transformer.GetInstance()` (commit-history-transformer.go lines
49-56): a fresh CommitHistoryTransformer with empty buffers. -/
def initialCommitHistoryTransformer : CommitHistoryTransformer :=
  { chtName := "CommitHistoryTransformer"
    chtOperationalLevel := "commit"
    vertexOutput := "data/commit-vertices.parquet"
    edgeOutput := "data/commit-edges.parquet"
    vertexData := []
    edgeData := [] }

/-- Modelled from the spec: the CommitContentTransformer
(FileInventoryExtractor) source file is not under src/; per the spec it
buffers a sequence of FileContentVertex and performs a content-copy side
effect per file during consumption.  The copy side effect is recorded as
the list of copied object hashes. -/
structure CommitContentTransformer where
  contentData : List FileContentVertex
  copiedFiles : List String
deriving DecidableEq

/-- Modelled from the spec: `CopyFile` performs the per-file content-copy
side effect; recorded as appending the file's object hash. -/
def CommitContentTransformer.CopyFile
    (t : CommitContentTransformer) (file : GitFile) :
    CommitContentTransformer :=
  { t with copiedFiles := t.copiedFiles ++ [file.fileHash] }

/-- Modelled from the spec: `AppendFileContentVertices` appends the rows
built for one commit to the transformer's buffer. -/
def CommitContentTransformer.AppendFileContentVertices
    (t : CommitContentTransformer) (rows : List FileContentVertex) :
    CommitContentTransformer :=
  { t with contentData := t.contentData ++ rows }

/-- Modelled from the spec: the StructureInfoTransformer source file is
not under src/; per the spec it accumulates a running file-count
statistic; `AddFileCount` feeds one commit's count into the accumulator. -/
structure StructureInfoTransformer where
  fileCount : Int
deriving DecidableEq

/-- Modelled from the spec: feed one commit's file count into the
accumulator. -/
def StructureInfoTransformer.AddFileCount
    (t : StructureInfoTransformer) (n : Int) : StructureInfoTransformer :=
  { t with fileCount := t.fileCount + n }

/-- transformer.Transformer: the polymorphic extractor interface.  The Go
code dispatches by runtime type assertion over exactly these three
concrete variants, so the interface is a sum of them. -/
inductive Transformer where
  | commitHistory (t : CommitHistoryTransformer)
  | commitContent (t : CommitContentTransformer)
  | structureInfo (t : StructureInfoTransformer)
deriving DecidableEq

/-- Modelled from the spec: `utils.ShortenHash` (source not under src/) —
shortened hashes are fixed-length hex prefixes; length 6, matching the
inline `[0:6]` shortening used in `visitCommit` (part_000 lines 141-142). -/
def shortenHash (h : String) : String := h.take 6

/-- The CommitVertex built by `visitCommit` for a commit (part_000 lines
116-126): the vertex carries the shortened commit hash. -/
def commitToVertex (repositoryName : String) (c : Commit) : CommitVertex :=
  { repositoryName := repositoryName
    commitHash := shortenHash c.hash
    authorName := c.authorName
    authorMail := c.authorMail
    authorTimestamp := c.authorWhen
    committerName := c.committerName
    committerMail := c.committerMail
    committerTimestamp := c.committerWhen
    commitMessage := c.message }

/-- The FileContentVertex built by `visitCommit` for one file of a commit
(part_000 lines 141-148): both hashes are shortened to their first six
characters. -/
def fileToVertex (c : Commit) (file : GitFile) : FileContentVertex :=
  { commitHash := c.hash.take 6
    objectHash := file.fileHash.take 6
    fileName := file.fileName
    fileSize := file.fileSize }

/-- One step of the `files.ForEach` loop in the FileInventory branch of
`visitCommit` (part_000 lines 140-152): extend the treeData slice, copy
the file, increment the processed counter. -/
def contentStep (c : Commit)
    (acc : List FileContentVertex × CommitContentTransformer × Int)
    (file : GitFile) :
    List FileContentVertex × CommitContentTransformer × Int :=
  (acc.1 ++ [fileToVertex c file], acc.2.1.CopyFile file, acc.2.2 + 1)

/-- `visitCommit` (part_000 lines 112-182).  Capability dispatch on the
transformer variant.  Returns the transformer's new state and the Go
function's `int` return value; `.error ()` models a `log.Fatal` process
abort (reachable only in the StructureInfo branch, whose tree-enumeration
failure is fatal). -/
def visitCommit (repositoryName : String) (commit : Commit)
    (t : Transformer) : Except Unit (Transformer × Int) :=
  match t with
  | .commitHistory v =>
      let shortCommitHash := shortenHash commit.hash
      let v := v.AppendCommitVertex
        { repositoryName := repositoryName
          commitHash := shortCommitHash
          authorName := commit.authorName
          authorMail := commit.authorMail
          authorTimestamp := commit.authorWhen
          committerName := commit.committerName
          committerMail := commit.committerMail
          committerTimestamp := commit.committerWhen
          commitMessage := commit.message }
      let pHashes := commit.parentHashes
      let v := v.AppendCommitEdge commit.hash pHashes
      .ok (.commitHistory v, 0)
  | .commitContent v =>
      match commit.files with
      | none => .ok (.commitContent v, -1)
      | some fs =>
          let res := fs.foldl (contentStep commit) ([], v, 0)
          .ok (.commitContent (res.2.1.AppendFileContentVertices res.1), res.2.2)
  | .structureInfo v =>
      match commit.files with
      | none => .error ()
      | some fs =>
          let count : Int := fs.foldl (fun c _ => c + 1) 0
          .ok (.structureInfo (v.AddFileCount count), 0)

/-- The per-transformer walk loop inside `Analyze` (part_000 lines
98-106): `count := 0`, then for each commit of the walk,
`count += visitCommit(commit, t)`.  The callback always returns nil, so
the walk visits every commit; a `log.Fatal` raised inside `visitCommit`
(modelled as `.error`) aborts the whole run. -/
def runWalk (repositoryName : String) (commits : List Commit)
    (t : Transformer) : Except Unit (Transformer × Int) :=
  commits.foldlM
    (fun acc commit =>
      (visitCommit repositoryName commit acc.1).map fun r => (r.1, acc.2 + r.2))
    (t, 0)

/-- The datasets flushed by one transformer's `Export()`:
CommitHistoryTransformer exports its vertex and edge buffers
(commit-history-transformer.go lines 58-70); per the spec the
FileInventory variant flushes its single row buffer and the
StructureSummary variant flushes its accumulated count. -/
inductive ExportData where
  | commitGraph (vertices : List CommitVertex) (edges : List CommitEdge)
  | fileContent (rows : List FileContentVertex)
  | structureSummary (fileCount : Int)
deriving DecidableEq

/-- `Export()` of each variant, as the exported datasets. -/
def exportTransformer : Transformer → ExportData
  | .commitHistory v => .commitGraph v.vertexData v.edgeData
  | .commitContent v => .fileContent v.contentData
  | .structureInfo v => .structureSummary v.fileCount

/-- `Analyze` (part_000 lines 79-110): for each registered transformer in
registration order, run a fresh full walk of the commit history (the walk
sequence over an unchanged repository is deterministic, so each
re-enumeration yields the same `commits` list), then call the
transformer's `Export()`.  The result collects, per transformer, its
exported datasets and its final processed-count. -/
def Analyze (repositoryName : String) (commits : List Commit) :
    List Transformer → Except Unit (List (ExportData × Int))
  | [] => .ok []
  | t :: ts => do
      let r ← runWalk repositoryName commits t
      let rest ← Analyze repositoryName commits ts
      pure ((exportTransformer r.1, r.2) :: rest)

/-- One extractor processed in isolation: a fresh full walk over the
commit history followed by that extractor's export. -/
def runAndExport (repositoryName : String) (commits : List Commit)
    (t : Transformer) : Except Unit (ExportData × Int) :=
  (runWalk repositoryName commits t).map fun r => (exportTransformer r.1, r.2)

/-- `AppendTransformer` (part_000 lines 72-77): registers a transformer
at the end of the engine's transformer list. -/
def AppendTransformer (transformers : List Transformer)
    (t : Transformer) : List Transformer :=
  transformers ++ [t]

/-- Modelled from the spec: each variant exposes `getMetaInfo()`
returning descriptive entries about what it produces (the variant
implementations are not under src/): the CommitGraph variant produces two
datasets, the FileInventory and StructureSummary variants one each. -/
def getMetaInfo : Transformer → List Meta
  | .commitHistory v =>
      [⟨v.vertexOutput, "CommitVertex", v.chtOperationalLevel⟩,
       ⟨v.edgeOutput, "CommitEdge", v.chtOperationalLevel⟩]
  | .commitContent _ => [⟨"data/file-content.parquet", "FileContentVertex", "commit"⟩]
  | .structureInfo _ => [⟨"data/structure-summary.parquet", "StructureSummary", "repository"⟩]

/-- `GetMetaInfos` (part_000 lines 184-190): allocates
`make([]index.Meta, len(transformers))` — a slice already holding one
zero-valued Meta per transformer — and then appends every transformer's
`GetMetaInfo()` entries to it. -/
def GetMetaInfos (transformers : List Transformer) : List Meta :=
  let metas := List.replicate transformers.length zeroMeta
  transformers.foldl (fun acc t => acc ++ getMetaInfo t) metas

/-- A go-git repository handle; `Init` never inspects it, it only stores
it. -/
structure GitRepository where
  commitLog : List Commit
deriving DecidableEq

/-- Modelled from the spec: `model.RepositoryConfig` (source not under
src/): `{repositoryUrl, isLocal, useInMemoryTempRepository, printLogs}`
plus the derived repository name returned by `GetRepositoryName()`. -/
structure RepositoryConfig where
  repositoryUrl : String
  isLocal : Bool
  useInMemoryTempRepository : Bool
  printLogs : Bool
  repositoryName : String
deriving DecidableEq

/-- Outcome of `Init`: `panicUnsupported` models the `log.Panic` on local
repositories, `fatal` models a `log.Fatal` abort, and `proceeds repo`
models Init returning normally with `driller.repository = repo`
(`none` is a nil handle). -/
inductive InitOutcome where
  | panicUnsupported
  | fatal
  | proceeds (repo : Option GitRepository)
deriving DecidableEq

/-- `Init` (part_000 lines 26-66).  The external collaborators are passed
as their outcomes: `memoryClone` is the result of `git.Clone` into
memory storage, `tempDirResult` of `ioutil.TempDir`, and `plainClone` of
`git.PlainClone`.  Control flow as in the source: local mode panics;
in-memory clone and temp-dir failures hit `log.Fatal`; the error of
`git.PlainClone` (part_000 line 60) is assigned to a shadowed variable
and never checked, so on-disk clone failure falls through with a nil
repository handle. -/
def Init (config : RepositoryConfig)
    (memoryClone : Except Unit GitRepository)
    (tempDirResult : Except Unit String)
    (plainClone : Except Unit GitRepository) : InitOutcome :=
  if config.isLocal then
    .panicUnsupported
  else if config.useInMemoryTempRepository then
    match memoryClone with
    | .error _ => .fatal
    | .ok r => .proceeds (some r)
  else
    match tempDirResult with
    | .error _ => .fatal
    | .ok _ =>
        match plainClone with
        | .error _ => .proceeds none
        | .ok r => .proceeds (some r)

/-! ## Helper lemmas -/

/-- Closed form of the `AppendCommitEdge` loop: it appends one edge per
parent hash, in order, all with the given commit hash, and touches no
other field. -/
theorem appendCommitEdge_eq (t : CommitHistoryTransformer)
    (commitHash : String) (parentHashes : List String) :
    t.AppendCommitEdge commitHash parentHashes
      = { t with edgeData :=
            t.edgeData ++ parentHashes.map fun p => ⟨commitHash, p⟩ } := by
  induction parentHashes generalizing t with
  | nil => simp [CommitHistoryTransformer.AppendCommitEdge]
  | cons p ps ih =>
      rw [show t.AppendCommitEdge commitHash (p :: ps)
            = CommitHistoryTransformer.AppendCommitEdge
                { t with edgeData := t.edgeData ++ [⟨commitHash, p⟩] }
                commitHash ps from rfl,
          ih]
      simp

/-- Closed form of the `files.ForEach` loop of the FileInventory branch:
it builds one FileContentVertex per file in order, copies each file, and
counts the files. -/
theorem contentStep_foldl (c : Commit) (fs : List GitFile) :
    ∀ (acc : List FileContentVertex) (v : CommitContentTransformer) (n : Int),
      fs.foldl (contentStep c) (acc, v, n)
        = (acc ++ fs.map (fileToVertex c),
           { v with copiedFiles := v.copiedFiles ++ fs.map fun f => f.fileHash },
           n + fs.length) := by
  induction fs with
  | nil =>
      intro acc v n
      simp
  | cons f fs ih =>
      intro acc v n
      rw [List.foldl_cons,
          show contentStep c (acc, v, n) f
            = (acc ++ [fileToVertex c f], v.CopyFile f, n + 1) from rfl,
          ih]
      simp [CommitContentTransformer.CopyFile]
      ring

/-! ## Claim theorems -/

/-- Claim C1: for every commit dispatched to a CommitGraph-capable
extractor, `visitCommit` appends exactly one CommitVertex and exactly one
CommitEdge per parent hash of that commit: a commit with zero parents adds
zero edges (the mapped list is empty), and a commit with k parents adds
exactly k edges, all carrying the same CommitHash (the commit's full
hash). -/
theorem visitCommit_commitGraph_appends
    (repositoryName : String) (c : Commit) (t : CommitHistoryTransformer) :
    visitCommit repositoryName c (.commitHistory t)
      = .ok (.commitHistory
          { t with
              vertexData := t.vertexData ++ [commitToVertex repositoryName c]
              edgeData := t.edgeData
                ++ c.parentHashes.map fun p => ⟨c.hash, p⟩ }, 0) ∧
    (t.vertexData ++ [commitToVertex repositoryName c]).length
      = t.vertexData.length + 1 ∧
    (t.edgeData ++ c.parentHashes.map fun p => (⟨c.hash, p⟩ : CommitEdge)).length
      = t.edgeData.length + c.parentHashes.length := by
  refine ⟨?_, by simp, by simp⟩
  simp [visitCommit, CommitHistoryTransformer.AppendCommitVertex,
    appendCommitEdge_eq, commitToVertex]

/-- Claim C10: the CommitHistoryTransformer's buffers are append-only:
`AppendCommitVertex` leaves previously buffered vertices and edges in
place and grows the vertex buffer by exactly one element;
`AppendCommitEdge` leaves both existing buffers in place and grows the
edge buffer by exactly the length of `parentHashes`, the new edges in
parent-hash order, each carrying the given commit hash. -/
theorem commitHistoryTransformer_append_only
    (t : CommitHistoryTransformer) (v : CommitVertex)
    (commitHash : String) (parentHashes : List String) :
    (t.AppendCommitVertex v).vertexData = t.vertexData ++ [v] ∧
    (t.AppendCommitVertex v).edgeData = t.edgeData ∧
    (t.AppendCommitVertex v).vertexData.length = t.vertexData.length + 1 ∧
    (t.AppendCommitEdge commitHash parentHashes).vertexData = t.vertexData ∧
    (t.AppendCommitEdge commitHash parentHashes).edgeData
      = t.edgeData ++ parentHashes.map (fun p => ⟨commitHash, p⟩) ∧
    (t.AppendCommitEdge commitHash parentHashes).edgeData.length
      = t.edgeData.length + parentHashes.length := by
  refine ⟨rfl, rfl, by simp [CommitHistoryTransformer.AppendCommitVertex], ?_, ?_, ?_⟩
  · rw [appendCommitEdge_eq]
  · rw [appendCommitEdge_eq]
  · rw [appendCommitEdge_eq]
    simp

/-! ## Concrete fixtures -/

/-- A derived repository name for the concrete runs. -/
def repoName0 : String := "disdrillery-repo"

/-- A full 40-character commit hash. -/
def fullHash0 : String := "0123456789abcdef0123456789abcdef01234567"

/-- A full 40-character parent hash. -/
def parentHash0 : String := "89abcdef0123456789abcdef0123456789abcdef"

/-- A commit with one parent and an empty tree. -/
def commitOne : Commit :=
  { hash := fullHash0
    authorName := "alice"
    authorMail := "alice@example.org"
    authorWhen := 1600000000
    committerName := "alice"
    committerMail := "alice@example.org"
    committerWhen := 1600000000
    message := "initial"
    parentHashes := [parentHash0]
    files := some [] }

/-- A file of the concrete tree. -/
def fileA : GitFile :=
  ⟨"a.txt", "aaaaaaaaaabbbbbbbbbbccccccccccdddddddddd", 10⟩

/-- A second file of the concrete tree. -/
def fileB : GitFile :=
  ⟨"b.txt", "ffffffffffeeeeeeeeeeddddddddddcccccccccc", 5⟩

/-- A root commit whose tree holds two files and enumerates fine. -/
def commitWithFiles : Commit :=
  { hash := "fedcba9876543210fedcba9876543210fedcba98"
    authorName := "bob"
    authorMail := "bob@example.org"
    authorWhen := 1600000100
    committerName := "bob"
    committerMail := "bob@example.org"
    committerWhen := 1600000100
    message := "add files"
    parentHashes := []
    files := some [fileA, fileB] }

/-- A commit whose tree enumeration fails (`commit.Files()` errors). -/
def commitNoTree : Commit :=
  { hash := "9999999999888888888877777777776666666666"
    authorName := "bob"
    authorMail := "bob@example.org"
    authorWhen := 1600000200
    committerName := "bob"
    committerMail := "bob@example.org"
    committerWhen := 1600000200
    message := "broken tree"
    parentHashes := ["fedcba9876543210fedcba9876543210fedcba98"]
    files := none }

/-- A fresh CommitContentTransformer with empty buffers. -/
def cct0 : CommitContentTransformer := ⟨[], []⟩

/-- A freshly registered CommitGraph-capable transformer. -/
def registeredHistory : Transformer :=
  .commitHistory initialCommitHistoryTransformer

/-- An on-disk (not in-memory) non-local configuration. -/
def cfgOnDisk : RepositoryConfig :=
  { repositoryUrl := "https://example.org/repo.git"
    isLocal := false
    useInMemoryTempRepository := false
    printLogs := false
    repositoryName := "repo" }

/-- A successfully created temporary directory. -/
def tmpDir0 : Except Unit String := .ok "/tmp/disdrillery-repo"

/-- Some successfully opened repository handle. -/
def someRepo : GitRepository := ⟨[]⟩

/-- Claim C2, counterexample: on a concrete commit, the CommitEdge
appended by `visitCommit` carries the full 40-character commit hash while
the CommitVertex appended in the same visit carries the shortened hash,
so the two CommitHash fields are not equal. -/
theorem commitEdge_hash_differs_from_vertex_hash :
    visitCommit repoName0 commitOne (.commitHistory initialCommitHistoryTransformer)
      = .ok (.commitHistory
          { initialCommitHistoryTransformer with
              vertexData := [commitToVertex repoName0 commitOne]
              edgeData := [⟨fullHash0, parentHash0⟩] }, 0) ∧
    (CommitEdge.mk fullHash0 parentHash0).commitHash
      ≠ (commitToVertex repoName0 commitOne).commitHash := by
  refine ⟨?_, by decide⟩
  simp [visitCommit, CommitHistoryTransformer.AppendCommitVertex,
    appendCommitEdge_eq, commitToVertex, commitOne,
    initialCommitHistoryTransformer]

/-- Claim C2 (amended): in any single walk, every CommitEdge appended for
a visited commit carries the commit's full hash, while the CommitVertex
appended for that same commit carries the shortened hash — namely
`shortenHash` of the edge's CommitHash — so the edge joins to the vertex
by shortening its CommitHash, not by string equality. -/
theorem visitCommit_edge_fullHash_vertex_shortHash
    (repositoryName : String) (c : Commit) (t : CommitHistoryTransformer) :
    visitCommit repositoryName c (.commitHistory t)
      = .ok (.commitHistory
          { t with
              vertexData := t.vertexData ++ [commitToVertex repositoryName c]
              edgeData := t.edgeData
                ++ c.parentHashes.map fun p => ⟨c.hash, p⟩ }, 0) ∧
    (commitToVertex repositoryName c).commitHash = shortenHash c.hash := by
  constructor
  · simp [visitCommit, CommitHistoryTransformer.AppendCommitVertex,
      appendCommitEdge_eq, commitToVertex]
  · simp [commitToVertex]

/-- Claim C5: for a commit whose tree enumeration succeeds, FileInventory
extraction appends exactly one FileContentVertex per file of the commit's
tree snapshot (each row built by `fileToVertex` from the commit's hash and
the file's object hash, name and size), copies each file, and
`visitCommit` returns the number of files enumerated. -/
theorem visitCommit_fileInventory_rows
    (repositoryName : String) (c : Commit) (fs : List GitFile)
    (t : CommitContentTransformer) (h : c.files = some fs) :
    visitCommit repositoryName c (.commitContent t)
      = .ok (.commitContent
          { contentData := t.contentData ++ fs.map (fileToVertex c)
            copiedFiles := t.copiedFiles ++ fs.map fun f => f.fileHash },
          (fs.length : Int)) ∧
    (fs.map (fileToVertex c)).length = fs.length := by
  refine ⟨?_, by simp⟩
  simp only [visitCommit, h]
  rw [contentStep_foldl]
  simp [CommitContentTransformer.AppendFileContentVertices]

/-- Witness for claim C5 at a concrete two-file commit. -/
theorem visitCommit_fileInventory_rows_witness :
    commitWithFiles.files = some [fileA, fileB] ∧
    (visitCommit repoName0 commitWithFiles (.commitContent cct0)
      = .ok (.commitContent
          { contentData := cct0.contentData
              ++ [fileA, fileB].map (fileToVertex commitWithFiles)
            copiedFiles := cct0.copiedFiles
              ++ [fileA, fileB].map fun f => f.fileHash },
          (([fileA, fileB] : List GitFile).length : Int)) ∧
     ([fileA, fileB].map (fileToVertex commitWithFiles)).length
       = ([fileA, fileB] : List GitFile).length) :=
  ⟨rfl, visitCommit_fileInventory_rows repoName0 commitWithFiles
    [fileA, fileB] cct0 rfl⟩

/-- Claim C3, evaluation at the failing input: over a walk of a two-file
commit followed by a commit whose tree enumeration fails, the
FileInventory run does not abort and the first commit's two rows are
intact, but the `-1` sentinel is added into the running processed-file
count, which ends at 1 instead of the 2 files actually processed. -/
theorem analyze_count_corrupted_by_sentinel :
    runWalk repoName0 [commitWithFiles, commitNoTree] (.commitContent cct0)
      = .ok (.commitContent
          { contentData :=
              [fileToVertex commitWithFiles fileA, fileToVertex commitWithFiles fileB]
            copiedFiles := [fileA.fileHash, fileB.fileHash] }, 1) ∧
    (1 : Int)
      ≠ ([fileToVertex commitWithFiles fileA,
          fileToVertex commitWithFiles fileB].length : Int) := by
  exact ⟨rfl, by decide⟩

/-- Claim C4, evaluation at the failing input: with one registered
transformer, `GetMetaInfos` returns a zero-valued Meta entry followed by
the transformer's entries — `make([]index.Meta, n)` pre-fills the slice —
so the result is not the plain concatenation of the registered
transformers' Meta entries. -/
theorem getMetaInfos_zero_value_prefix :
    GetMetaInfos [registeredHistory]
      = zeroMeta :: getMetaInfo registeredHistory ∧
    GetMetaInfos [registeredHistory] ≠ getMetaInfo registeredHistory := by
  exact ⟨rfl, by decide⟩

/-- Claim C6, evaluation at the failing input: for the on-disk clone path
with a succeeding temp-dir creation and a failing `git.PlainClone`,
`Init` neither aborts nor panics — the clone error is assigned to a
shadowed variable and never checked — and the engine proceeds with a nil
repository handle. -/
theorem init_plainClone_error_not_fatal :
    Init cfgOnDisk (.ok someRepo) tmpDir0 (.error ()) = .proceeds none ∧
    InitOutcome.proceeds none ≠ InitOutcome.fatal ∧
    InitOutcome.proceeds none ≠ InitOutcome.panicUnsupported := by
  exact ⟨rfl, by decide, by decide⟩

/-- Claim C7: `Analyze` processes the registered extractors exactly as
the independent composition of per-extractor runs, in registration
order: the result list is the monadic map, over the registered
transformer list, of a fresh full walk over the commit history followed
by that extractor's export — so each extractor's output depends only on
its own initial state and the commit history, never on another
extractor's state. -/
theorem analyze_is_independent_runs
    (repositoryName : String) (commits : List Commit)
    (ts : List Transformer) :
    Analyze repositoryName commits ts
      = ts.mapM (runAndExport repositoryName commits) := by
  induction ts with
  | nil => rfl
  | cons t ts ih =>
      rw [List.mapM_cons]
      show (do
          let r ← runWalk repositoryName commits t
          let rest ← Analyze repositoryName commits ts
          pure ((exportTransformer r.1, r.2) :: rest))
        = _
      rw [ih]
      cases h : runWalk repositoryName commits t with
      | error e =>
          simp [runAndExport, h, Except.map, Bind.bind, Except.bind]
      | ok r =>
          cases h2 : List.mapM (runAndExport repositoryName commits) ts with
          | error e =>
              simp [runAndExport, h, h2, Except.map, Bind.bind, Except.bind,
                Pure.pure, Except.pure]
          | ok rs =>
              simp [runAndExport, h, h2, Except.map, Bind.bind, Except.bind,
                Pure.pure, Except.pure]

/-- A local-repository configuration (isLocal = true). -/
def cfgLocal : RepositoryConfig :=
  { repositoryUrl := "/home/user/repo"
    isLocal := true
    useInMemoryTempRepository := false
    printLogs := false
    repositoryName := "repo" }

/-- Claim C8: calling `Init` with isLocal = true fails fast with the
unsupported-configuration panic, for every value of the other
configuration fields and before any repository acquisition: the outcome
does not depend on the clone or temp-dir results. -/
theorem init_isLocal_fails_fast (config : RepositoryConfig)
    (memoryClone : Except Unit GitRepository)
    (tempDirResult : Except Unit String)
    (plainClone : Except Unit GitRepository)
    (h : config.isLocal = true) :
    Init config memoryClone tempDirResult plainClone
      = .panicUnsupported := by
  simp [Init, h]

/-- Witness for claim C8 at a concrete local configuration. -/
theorem init_isLocal_fails_fast_witness :
    cfgLocal.isLocal = true ∧
    Init cfgLocal (.error ()) (.error ()) (.error ())
      = .panicUnsupported :=
  ⟨rfl, init_isLocal_fails_fast cfgLocal (.error ()) (.error ()) (.error ()) rfl⟩

/-- Claim C9: extraction is deterministic over repository state — two
`Analyze` runs over the same walked commit history with the same
registered transformers produce equal results, hence identical vertex,
edge and record sets; the embedding is single-threaded and pure, so the
only inputs are the repository state and the registered extractors. -/
theorem analyze_deterministic (repositoryName : String)
    (commits1 commits2 : List Commit) (ts1 ts2 : List Transformer)
    (hc : commits1 = commits2) (ht : ts1 = ts2) :
    Analyze repositoryName commits1 ts1
      = Analyze repositoryName commits2 ts2 := by
  rw [hc, ht]

/-- Witness for claim C9 at a concrete two-commit history. -/
theorem analyze_deterministic_witness :
    [commitWithFiles, commitOne] = [commitWithFiles, commitOne] ∧
    Analyze repoName0 [commitWithFiles, commitOne] [registeredHistory]
      = Analyze repoName0 [commitWithFiles, commitOne] [registeredHistory] :=
  ⟨rfl, analyze_deterministic repoName0 [commitWithFiles, commitOne]
    [commitWithFiles, commitOne] [registeredHistory] [registeredHistory] rfl rfl⟩

end Disdrillery
